import Mathlib

/-!
A shallow embedding of the gtmcp retrieval core: the rate-limited retrying
transport (`BaseClient._make_request` / `_enforce_rate_limit`), the OSCAR
course-catalog client (`OscarClient`) and the SMARTech OAI-PMH harvester
(`SMARTechClient`).  Time is modelled with rationals, HTTP outcomes with an
explicit outcome type, and Python exceptions with an error sum type; every
definition mirrors the corresponding Python function.
-/

namespace GTMCP

/-- Python string helpers over the character-list model of `String`.
`pyStrip` mirrors `str.strip()` (drop whitespace at both ends). -/
def pyStrip (s : String) : String :=
  ⟨((s.data.dropWhile Char.isWhitespace).reverse.dropWhile Char.isWhitespace).reverse⟩

/-- Mirror of Python `str.lower()` (per-character lowercasing). -/
def pyLower (s : String) : String :=
  ⟨s.data.map Char.toLower⟩

/-- Mirror of Python `pat in s` for strings: substring containment. -/
def strContains (s pat : String) : Bool :=
  decide (pat.data <:+: s.data)

/-- Mirror of Python `s.startswith(pat)`. -/
def strStartsWith (s pat : String) : Bool :=
  decide (pat.data <+: s.data)

/-- Mirror of Python `int(s)`: optional surrounding whitespace, optional sign,
then at least one decimal digit; anything else raises `ValueError`,
modelled as `none`. -/
def pyInt (s : String) : Option Int :=
  let t := (pyStrip s).data
  let core : List Char × Int :=
    match t with
    | '-' :: rest => (rest, -1)
    | '+' :: rest => (rest, 1)
    | _ => (t, 1)
  match core with
  | (digits, sign) =>
    if digits ≠ [] ∧ digits.all Char.isDigit then
      some (sign * (digits.foldl (fun acc c => 10 * acc + (c.toNat - '0'.toNat)) (0 : Nat) : Int))
    else
      none

/-- The exception taxonomy of `base_client.py` / `exceptions.py`, carrying
the exception message (Python `str(e)`). -/
inductive GTError where
  | clientError (msg : String)
  | networkError (msg : String)
  | rateLimitError (msg : String)
  | validationError (msg : String)
  | parseError (msg : String)
  | dataParsingError (msg : String)
deriving Repr, DecidableEq

/-- The message of an exception, as Python `str(e)` yields it. -/
def errMsg : GTError → String
  | .clientError m => m
  | .networkError m => m
  | .rateLimitError m => m
  | .validationError m => m
  | .parseError m => m
  | .dataParsingError m => m

/-- Equality of `Except` results is decidable when both sides are. -/
instance {e a : Type} [DecidableEq e] [DecidableEq a] : DecidableEq (Except e a) :=
  fun x y =>
    match x, y with
    | .ok u, .ok v =>
      if h : u = v then isTrue (by rw [h]) else isFalse (fun hh => h (Except.ok.inj hh))
    | .error u, .error v =>
      if h : u = v then isTrue (by rw [h]) else isFalse (fun hh => h (Except.error.inj hh))
    | .ok _, .error _ => isFalse (fun hh => Except.noConfusion hh)
    | .error _, .ok _ => isFalse (fun hh => Except.noConfusion hh)

/-- An HTTP response: status code and body text. -/
structure Response where
  status : Nat
  body : String
deriving Repr, DecidableEq

/-- What one outbound attempt of the underlying HTTP library can produce:
a response, a timeout exception, or a connection-error exception. -/
inductive AttemptOutcome where
  | resp (r : Response)
  | timeout
  | connError
deriving Repr, DecidableEq

/-- What `_make_request` can produce: a response, a raised exception, or the
implicit Python `None` when the `for attempt in range(max_retries)` loop body
never runs. -/
inductive ReqResult where
  | ok (r : Response)
  | err (e : GTError)
  | noneResult
deriving Repr, DecidableEq

/-- The pacing state shared across calls on one client instance: the current
wall clock and the recorded `_last_request_time`. -/
structure ReqState where
  clock : ℚ
  last : ℚ
deriving Repr, DecidableEq

/-- Observable trace of one `_make_request` call: its result, how many loop
iterations (attempts) ran, the backoff sleeps performed between attempts (in
seconds), the recorded `_last_request_time` value of every attempt in order,
and the final pacing state. -/
structure RequestTrace where
  result : ReqResult
  attempts : Nat
  sleeps : List Nat
  times : List ℚ
  final : ReqState
deriving Repr, DecidableEq

/-- Mirror of `BaseClient._enforce_rate_limit`: if less than `delay` elapsed
since `_last_request_time`, sleep the remainder (advancing the clock), then
record the current clock as the new `_last_request_time`. -/
def enforce_rate_limit (delay : ℚ) (s : ReqState) : ReqState :=
  let timeSinceLast := s.clock - s.last
  if timeSinceLast < delay then
    let c := s.clock + (delay - timeSinceLast)
    ⟨c, c⟩
  else
    ⟨s.clock, s.clock⟩

/-- The `try`/`except` dispatch of one attempt in `BaseClient._make_request`.
`Sum.inl` is a result the loop ends with immediately (a non-error response
returned from the `try` body, or the non-retryable `NetworkError` of the
`HTTPError` clause for a status outside 500/502/503/504); `Sum.inr e` is a
retryable failure, where `e` is the exception the handling clause raises on
the last attempt.  A 429 response raises `RateLimitError` inside the `try`,
which only the final `except Exception` clause catches: it is therefore
retryable, and its last-attempt exception is the generic `ClientError`. -/
def attempt_classify (maxRetries : Nat) (o : AttemptOutcome) : ReqResult ⊕ GTError :=
  match o with
  | .resp r =>
    if r.status = 429 then
      .inr (.clientError
        ("Request failed after " ++ toString maxRetries ++ " attempts: Rate limit exceeded"))
    else if 400 ≤ r.status then
      if r.status = 500 ∨ r.status = 502 ∨ r.status = 503 ∨ r.status = 504 then
        .inr (.networkError ("Server error after " ++ toString maxRetries ++ " attempts"))
      else
        .inl (.err (.networkError "HTTP error"))
    else
      .inl (.ok r)
  | .timeout =>
    .inr (.networkError ("Request timeout after " ++ toString maxRetries ++ " attempts"))
  | .connError =>
    .inr (.networkError ("Connection error after " ++ toString maxRetries ++ " attempts"))

/-- Mirror of the `for attempt in range(max_retries)` loop of
`BaseClient._make_request`.  `a` is the current attempt index, the `Nat`
recursion argument is the remaining iteration count `max_retries - a`,
`outcomes a` is what the HTTP library does on attempt `a`, and `dur a` is the
wall-clock duration of that attempt.  Every iteration first runs
`_enforce_rate_limit` (recording an attempt time), then performs the attempt;
a retryable failure on a non-final attempt sleeps `2 ** attempt` seconds and
continues, on the final attempt it raises the classified exception. -/
def make_request_aux (outcomes : Nat → AttemptOutcome) (dur : Nat → ℚ)
    (delay : ℚ) (maxRetries : Nat) : Nat → Nat → ReqState → RequestTrace
  | _, 0, s => ⟨.noneResult, 0, [], [], s⟩
  | a, fuel + 1, s =>
    let s1 := enforce_rate_limit delay s
    let t := s1.last
    let s2 : ReqState := ⟨s1.clock + dur a, s1.last⟩
    match attempt_classify maxRetries (outcomes a) with
    | .inl res => ⟨res, 1, [], [t], s2⟩
    | .inr e =>
      if a + 1 = maxRetries then
        ⟨.err e, 1, [], [t], s2⟩
      else
        let s3 : ReqState := ⟨s2.clock + ((2 ^ a : Nat) : ℚ), s2.last⟩
        let r := make_request_aux outcomes dur delay maxRetries (a + 1) fuel s3
        ⟨r.result, r.attempts + 1, 2 ^ a :: r.sleeps, t :: r.times, r.final⟩

/-- Mirror of `BaseClient._make_request`: raises `ClientError` when used
outside an opened connection scope (`self._session is None`), otherwise runs
the retry loop starting at attempt 0. -/
def make_request (outcomes : Nat → AttemptOutcome) (dur : Nat → ℚ) (delay : ℚ)
    (maxRetries : Nat) (sessionOpen : Bool) (s : ReqState) : RequestTrace :=
  if sessionOpen then
    make_request_aux outcomes dur delay maxRetries 0 maxRetries s
  else
    ⟨.err (.clientError "Client not initialized. Use as context manager."), 0, [], [], s⟩

/-- Semester model from `models.py`. -/
structure Semester where
  code : String
  name : String
  view_only : Bool
deriving Repr, DecidableEq

/-- Course search-result model from `models.py`. -/
structure CourseInfo where
  crn : String
  title : String
  subject : String
  course_number : String
  section' : String
deriving Repr, DecidableEq

/-- Registration availability model from `models.py`. -/
structure RegistrationInfo where
  seats_capacity : Int
  seats_actual : Int
  seats_remaining : Int
  waitlist_capacity : Int
  waitlist_actual : Int
  waitlist_remaining : Int
deriving Repr, DecidableEq

/-- The option loop of `OscarClient.get_available_semesters`: each dropdown
option contributes `(value, text)`; empty values, empty texts and the `%`
sentinel are dropped; `view_only` is set when the lowercased text contains
`view only`; the name keeps the option text unchanged. -/
def parse_semesters (options : List (String × String)) : List Semester :=
  options.filterMap fun vt =>
    let value := pyStrip vt.1
    let text := pyStrip vt.2
    if value ≠ "" ∧ text ≠ "" ∧ value ≠ "%" then
      some ⟨value, text, strContains (pyLower text) "view only"⟩
    else
      none

/-- Mirror of `OscarClient.get_available_semesters`.  The argument is the
outcome of fetching and souping the landing page: an exception, a page with
no `p_term` dropdown (`none`), or the dropdown's options.  A missing dropdown
raises `ParseError` inside the `try`; the surrounding `except Exception`
clause re-raises every failure as `NetworkError` with a wrapping message. -/
def get_available_semesters
    (fetch : Except GTError (Option (List (String × String)))) :
    Except GTError (List Semester) :=
  let body : Except GTError (List Semester) := do
    let page ← fetch
    match page with
    | none => Except.error (.parseError "Could not find semester dropdown")
    | some opts => Except.ok (parse_semesters opts)
  match body with
  | .ok v => .ok v
  | .error e =>
    .error (.networkError ("Failed to fetch available semesters: " ++ errMsg e))

/-- The course-number predicate of `OscarClient.search_courses`: the already
stripped filter string is a substring of the course number, or the course
number starts with it. -/
def course_filter_fun (course_num : String) : CourseInfo → Bool := fun c =>
  strContains c.course_number course_num || strStartsWith c.course_number course_num

/-- The title predicate of `OscarClient.search_courses`: the already
lowercased and stripped filter string is a substring of the lowercased
course title. -/
def title_filter_fun (title_lower : String) : CourseInfo → Bool := fun c =>
  strContains (pyLower c.title) title_lower

/-- Mirror of the local filtering in `OscarClient.search_courses`, applied to
the full subject listing obtained from `get_courses_by_subject`.  A falsy
(`none` or empty) filter is skipped; otherwise `course_num` is stripped and
matched with `course_filter_fun`, and `title` is lowercased and stripped and
matched with `title_filter_fun`. -/
def search_courses (all_courses : List CourseInfo)
    (course_num : Option String) (title : Option String) : List CourseInfo :=
  let filtered := all_courses
  let filtered :=
    match course_num with
    | none => filtered
    | some cn =>
      if cn = "" then filtered
      else filtered.filter (course_filter_fun (pyStrip cn))
  match title with
  | none => filtered
  | some t0 =>
    if t0 = "" then filtered
    else filtered.filter (title_filter_fun (pyStrip (pyLower t0)))

/-- An HTML table as the registration/restriction extractors see it: an
optional caption text and rows of stripped cell texts. -/
structure HtmlTable where
  caption : Option String
  rows : List (List String)
deriving Repr, DecidableEq

/-- The `Seats` row body of `OscarClient._extract_registration_info`: three
sequential field assignments from `cells[1..3]`, aborted by the first
non-numeric cell (`ValueError`), keeping assignments already made. -/
def parse_seats_row (ri : RegistrationInfo) (cells : List String) : RegistrationInfo :=
  match pyInt (cells.getD 1 "") with
  | none => ri
  | some a =>
    let ri := { ri with seats_capacity := a }
    match pyInt (cells.getD 2 "") with
    | none => ri
    | some b =>
      let ri := { ri with seats_actual := b }
      match pyInt (cells.getD 3 "") with
      | none => ri
      | some c => { ri with seats_remaining := c }

/-- The `Waitlist` row body of `OscarClient._extract_registration_info`,
with the same abort-on-first-failure semantics as the seats row. -/
def parse_waitlist_row (ri : RegistrationInfo) (cells : List String) : RegistrationInfo :=
  match pyInt (cells.getD 1 "") with
  | none => ri
  | some a =>
    let ri := { ri with waitlist_capacity := a }
    match pyInt (cells.getD 2 "") with
    | none => ri
    | some b =>
      let ri := { ri with waitlist_actual := b }
      match pyInt (cells.getD 3 "") with
      | none => ri
      | some c => { ri with waitlist_remaining := c }

/-- One row of the registration table: rows with fewer than 4 cells are
skipped; a row whose joined text contains `Seats` feeds the seats fields,
else one containing `Waitlist` feeds the waitlist fields. -/
def process_registration_row (ri : RegistrationInfo) (cells : List String) :
    RegistrationInfo :=
  if 4 ≤ cells.length then
    let row_text := String.intercalate " " cells
    if strContains row_text "Seats" then
      parse_seats_row ri cells
    else if strContains row_text "Waitlist" then
      parse_waitlist_row ri cells
    else
      ri
  else
    ri

/-- Mirror of `OscarClient._extract_registration_info`: start from the
all-zero structure and fold every row of every table whose caption contains
`Registration Availability`. -/
def extract_registration_info (tables : List HtmlTable) : RegistrationInfo :=
  let init : RegistrationInfo := ⟨0, 0, 0, 0, 0, 0⟩
  tables.foldl
    (fun ri table =>
      match table.caption with
      | some cap =>
        if strContains cap "Registration Availability" then
          table.rows.foldl process_registration_row ri
        else
          ri
      | none => ri)
    init

/-- Mirror of `OscarClient.test_connection`: a marker-substring check on the
response body, with every exception (including `ClientError` from an
unopened scope, and the `AttributeError` on the implicit `None` result)
caught and turned into `False`. -/
def test_connection (r : ReqResult) : Bool :=
  match r with
  | .ok resp => strContains resp.body "Schedule of Classes" || strContains resp.body "bwckschd"
  | .err _ => false
  | .noneResult => false

/-- Mirror of `SMARTechClient.test_connection`, same catch-everything shape
with the repository marker string. -/
def smartech_test_connection (r : ReqResult) : Bool :=
  match r with
  | .ok resp => strContains resp.body "Georgia Tech Digital Repository"
  | .err _ => false
  | .noneResult => false

/-- The fields of a SMARTech research paper that the search/filter logic
reads (`models.ResearchPaper` restricted to what `_matches_criteria`
touches, plus the identifier). -/
structure ResearchPaperM where
  oai_identifier : String
  title : String
  abstract : String
  subject_areas : List String
deriving Repr, DecidableEq

/-- Mirror of `SMARTechClient._matches_criteria`: with no filters everything
matches; otherwise every given keyword list must have one case-insensitive
substring hit on title+abstract+joined subjects, and every given subject
list one subject-in-subject substring hit. -/
def matches_criteria (keywords subject_areas : Option (List String))
    (paper : ResearchPaperM) : Bool :=
  let noKw := keywords = none ∨ keywords = some []
  let noSubj := subject_areas = none ∨ subject_areas = some []
  if noKw ∧ noSubj then
    true
  else
    let text_to_search :=
      pyLower (paper.title ++ " " ++ paper.abstract ++ " " ++
        String.intercalate " " paper.subject_areas)
    let kwOk :=
      match keywords with
      | none => true
      | some [] => true
      | some kws => kws.any fun kw => strContains text_to_search (pyLower kw)
    if !kwOk then
      false
    else
      match subject_areas with
      | none => true
      | some [] => true
      | some subs =>
        subs.any fun sub =>
          paper.subject_areas.any fun ps => strContains (pyLower ps) (pyLower sub)

/-- Mirror of the parameter construction in `SMARTechClient.search_records`:
`verb` and `metadataPrefix` are always present; a resumption token is added
to them, and only in its absence are the `from`/`until`/`set` filters
appended (dates going through `_format_date`, abstracted as `formatDate`). -/
def build_list_records_params (formatDate : String → String)
    (date_from date_until set_spec resumption_token : Option String) :
    List (String × String) :=
  let params := [("verb", "ListRecords"), ("metadataPrefix", "oai_dc")]
  match resumption_token with
  | some tok => params ++ [("resumptionToken", tok)]
  | none =>
    let params := params ++
      (match date_from with
       | some df => [("from", formatDate df)]
       | none => [])
    let params := params ++
      (match date_until with
       | some du => [("until", formatDate du)]
       | none => [])
    params ++
      (match set_spec with
       | some sp => [("set", sp)]
       | none => [])

/-- One ListRecords response page: its parsed records and its resumption
token, if any. -/
structure HarvestPage where
  records : List ResearchPaperM
  token : Option String
deriving Repr, DecidableEq

/-- The record loop of `SMARTechClient.search_records`: append each record
that matches the criteria, and break as soon as the accumulated list reaches
`max_records` (the check runs after each record, matching or not). -/
def collect_papers (accepts : ResearchPaperM → Bool) (max_records : Nat)
    (acc : List ResearchPaperM) : List ResearchPaperM → List ResearchPaperM
  | [] => acc
  | r :: rs =>
    let acc' := if accepts r then acc ++ [r] else acc
    if max_records ≤ acc'.length then
      acc'
    else
      collect_papers accepts max_records acc' rs

/-- The result dictionary of `SMARTechClient.search_records`. -/
structure SearchResult where
  papers : List ResearchPaperM
  resumptionToken : Option String
  count : Nat
deriving Repr, DecidableEq

/-- Mirror of `SMARTechClient.search_records`: build the request parameters,
perform the single `ListRecords` request (`env` maps the outbound parameter
list to the response page), filter that one page's records up to
`max_records`, and report the page's resumption token.  No further page is
fetched. -/
def search_records (env : List (String × String) → HarvestPage)
    (formatDate : String → String)
    (keywords subject_areas : Option (List String))
    (date_from date_until set_spec resumption_token : Option String)
    (max_records : Nat) : SearchResult :=
  let params :=
    build_list_records_params formatDate date_from date_until set_spec resumption_token
  let page := env params
  let papers := collect_papers (matches_criteria keywords subject_areas) max_records [] page.records
  ⟨papers, page.token, papers.length⟩

/-- Outcome family: every attempt yields HTTP 500. -/
def always500 : Nat → AttemptOutcome := fun _ => .resp ⟨500, ""⟩

/-- Outcome family: the first `n - 1` attempts yield HTTP 500, every later
one HTTP 200. -/
def failThenOk (n : Nat) : Nat → AttemptOutcome := fun i =>
  if i + 1 < n then .resp ⟨500, ""⟩ else .resp ⟨200, "ok"⟩

/-- A minimal research paper used in the harvest fixtures. -/
def paperFix (i : String) : ResearchPaperM := ⟨i, "t", "a", []⟩

/-- Fixture: page 1 of the harvest scenario, two records and token `X`. -/
def pageOne : HarvestPage := ⟨[paperFix "p1", paperFix "p2"], some "X"⟩

/-- Fixture: page 2 of the harvest scenario, one record and no token. -/
def pageTwo : HarvestPage := ⟨[paperFix "p3"], none⟩

/-- Fixture upstream: requests without a `resumptionToken` parameter get
page 1, requests with one get page 2. -/
def envTwoPages : List (String × String) → HarvestPage := fun ps =>
  match ps.lookup "resumptionToken" with
  | none => pageOne
  | some _ => pageTwo

/-- Fixture: the semester dropdown options of the spec's fixture. -/
def semesterOptionsFix : List (String × String) :=
  [("", "None"), ("202502", "Spring 2025"), ("202402", "Spring 2024 (View only)")]

/-- A course fixture with the given course number. -/
def courseFix (n : String) : CourseInfo := ⟨"1", "T", "CS", n, "A"⟩

/-- Fixture: the subject listing with course numbers 1301, 1331, 1332. -/
def coursesFix : List CourseInfo := [courseFix "1301", courseFix "1331", courseFix "1332"]

/-- Fixture: a Registration Availability table whose Seats row has the
non-numeric cell `x` in the second numeric column, next to a well-formed
Waitlist row. -/
def regTablesFix : List HtmlTable :=
  [⟨some "Registration Availability", [["Seats", "10", "x", "5"], ["Waitlist", "2", "1", "1"]]⟩]

/-- Unfolding equation for one executed iteration of the retry loop. -/
theorem make_request_aux_succ (outcomes : Nat → AttemptOutcome) (dur : Nat → ℚ)
    (delay : ℚ) (maxRetries a fuel : Nat) (s : ReqState) :
    make_request_aux outcomes dur delay maxRetries a (fuel + 1) s =
      (match attempt_classify maxRetries (outcomes a) with
       | .inl res =>
         ⟨res, 1, [], [(enforce_rate_limit delay s).last],
           ⟨(enforce_rate_limit delay s).clock + dur a, (enforce_rate_limit delay s).last⟩⟩
       | .inr e =>
         if a + 1 = maxRetries then
           ⟨.err e, 1, [], [(enforce_rate_limit delay s).last],
             ⟨(enforce_rate_limit delay s).clock + dur a, (enforce_rate_limit delay s).last⟩⟩
         else
           let r := make_request_aux outcomes dur delay maxRetries (a + 1) fuel
             ⟨(enforce_rate_limit delay s).clock + dur a + ((2 ^ a : Nat) : ℚ),
               (enforce_rate_limit delay s).last⟩
           ⟨r.result, r.attempts + 1, 2 ^ a :: r.sleeps,
             (enforce_rate_limit delay s).last :: r.times, r.final⟩) := rfl

/-- An attempt classified as terminal ends the loop with its result. -/
theorem make_request_aux_terminal (outcomes : Nat → AttemptOutcome) (dur : Nat → ℚ)
    (delay : ℚ) (maxRetries a fuel : Nat) (s : ReqState) (res : ReqResult)
    (h : attempt_classify maxRetries (outcomes a) = .inl res) :
    make_request_aux outcomes dur delay maxRetries a (fuel + 1) s =
      ⟨res, 1, [], [(enforce_rate_limit delay s).last],
        ⟨(enforce_rate_limit delay s).clock + dur a, (enforce_rate_limit delay s).last⟩⟩ := by
  rw [make_request_aux_succ, h]

/-- A retryable failure on the last attempt raises its classified exception. -/
theorem make_request_aux_retry_last (outcomes : Nat → AttemptOutcome) (dur : Nat → ℚ)
    (delay : ℚ) (maxRetries a fuel : Nat) (s : ReqState) (e : GTError)
    (h : attempt_classify maxRetries (outcomes a) = .inr e) (hl : a + 1 = maxRetries) :
    make_request_aux outcomes dur delay maxRetries a (fuel + 1) s =
      ⟨.err e, 1, [], [(enforce_rate_limit delay s).last],
        ⟨(enforce_rate_limit delay s).clock + dur a, (enforce_rate_limit delay s).last⟩⟩ := by
  rw [make_request_aux_succ, h]
  exact if_pos hl

/-- A retryable failure on a non-final attempt sleeps `2 ^ attempt` seconds
and continues with the next attempt. -/
theorem make_request_aux_retry_cont (outcomes : Nat → AttemptOutcome) (dur : Nat → ℚ)
    (delay : ℚ) (maxRetries a fuel : Nat) (s : ReqState) (e : GTError)
    (h : attempt_classify maxRetries (outcomes a) = .inr e) (hl : ¬(a + 1 = maxRetries)) :
    make_request_aux outcomes dur delay maxRetries a (fuel + 1) s =
      ⟨(make_request_aux outcomes dur delay maxRetries (a + 1) fuel
          ⟨(enforce_rate_limit delay s).clock + dur a + ((2 ^ a : Nat) : ℚ),
            (enforce_rate_limit delay s).last⟩).result,
        (make_request_aux outcomes dur delay maxRetries (a + 1) fuel
          ⟨(enforce_rate_limit delay s).clock + dur a + ((2 ^ a : Nat) : ℚ),
            (enforce_rate_limit delay s).last⟩).attempts + 1,
        2 ^ a :: (make_request_aux outcomes dur delay maxRetries (a + 1) fuel
          ⟨(enforce_rate_limit delay s).clock + dur a + ((2 ^ a : Nat) : ℚ),
            (enforce_rate_limit delay s).last⟩).sleeps,
        (enforce_rate_limit delay s).last :: (make_request_aux outcomes dur delay maxRetries (a + 1) fuel
          ⟨(enforce_rate_limit delay s).clock + dur a + ((2 ^ a : Nat) : ℚ),
            (enforce_rate_limit delay s).last⟩).times,
        (make_request_aux outcomes dur delay maxRetries (a + 1) fuel
          ⟨(enforce_rate_limit delay s).clock + dur a + ((2 ^ a : Nat) : ℚ),
            (enforce_rate_limit delay s).last⟩).final⟩ := by
  rw [make_request_aux_succ, h]
  exact if_neg hl

/-- Inside an opened connection scope `_make_request` is the retry loop from
attempt 0. -/
theorem make_request_open (outcomes : Nat → AttemptOutcome) (dur : Nat → ℚ)
    (delay : ℚ) (maxRetries : Nat) (s : ReqState) :
    make_request outcomes dur delay maxRetries true s =
      make_request_aux outcomes dur delay maxRetries 0 maxRetries s := rfl

/-- A 500 response is classified retryable with the server-error exhaustion
message. -/
theorem attempt_classify_500 (maxRetries : Nat) (body : String) :
    attempt_classify maxRetries (.resp ⟨500, body⟩) =
      .inr (.networkError ("Server error after " ++ toString maxRetries ++ " attempts")) := by
  simp [attempt_classify]

/-- A 200 response is classified terminal and returned. -/
theorem attempt_classify_200 (maxRetries : Nat) (body : String) :
    attempt_classify maxRetries (.resp ⟨200, body⟩) = .inl (.ok ⟨200, body⟩) := by
  simp [attempt_classify]

/-- On an endpoint that always returns 500 the loop runs all remaining
attempts, sleeps `2 ^ i` between consecutive ones, and raises the
server-error `NetworkError`. -/
theorem make_request_aux_always500 (dur : Nat → ℚ) (delay : ℚ) (maxRetries : Nat) :
    ∀ fuel a s, 1 ≤ fuel → a + fuel = maxRetries →
      (make_request_aux always500 dur delay maxRetries a fuel s).result
          = .err (.networkError ("Server error after " ++ toString maxRetries ++ " attempts"))
      ∧ (make_request_aux always500 dur delay maxRetries a fuel s).attempts = fuel
      ∧ (make_request_aux always500 dur delay maxRetries a fuel s).sleeps
          = (List.range' a (fuel - 1)).map (fun i => 2 ^ i) := by
  intro fuel
  induction fuel with
  | zero => intro a s h _; omega
  | succ k ih =>
    intro a s _ hsum
    have hcl : attempt_classify maxRetries (always500 a) =
        .inr (.networkError ("Server error after " ++ toString maxRetries ++ " attempts")) :=
      attempt_classify_500 maxRetries ""
    cases k with
    | zero =>
      rw [make_request_aux_retry_last always500 dur delay maxRetries a 0 s _ hcl (by omega)]
      exact ⟨rfl, rfl, rfl⟩
    | succ j =>
      rw [make_request_aux_retry_cont always500 dur delay maxRetries a (j + 1) s _ hcl (by omega)]
      refine ⟨(ih _ _ (by omega) (by omega)).1, ?_, ?_⟩
      · rw [(ih _ _ (by omega) (by omega)).2.1]
      · show 2 ^ a :: _ = _
        rw [(ih _ _ (by omega) (by omega)).2.2,
          show j + 1 + 1 - 1 = j + 1 by omega, List.range'_succ, List.map_cons]
        rfl

/-- On an endpoint that returns 500 until the final attempt and 200 there,
the loop runs all remaining attempts and returns the 200 response. -/
theorem make_request_aux_failThenOk (dur : Nat → ℚ) (delay : ℚ) (n : Nat) :
    ∀ fuel a s, 1 ≤ fuel → a + fuel = n →
      (make_request_aux (failThenOk n) dur delay n a fuel s).result = .ok ⟨200, "ok"⟩
      ∧ (make_request_aux (failThenOk n) dur delay n a fuel s).attempts = fuel
      ∧ (make_request_aux (failThenOk n) dur delay n a fuel s).sleeps
          = (List.range' a (fuel - 1)).map (fun i => 2 ^ i) := by
  intro fuel
  induction fuel with
  | zero => intro a s h _; omega
  | succ k ih =>
    intro a s _ hsum
    cases k with
    | zero =>
      have hout : failThenOk n a = .resp ⟨200, "ok"⟩ := by
        simp [failThenOk, show ¬(a + 1 < n) by omega]
      have hcl : attempt_classify n (failThenOk n a) = .inl (.ok ⟨200, "ok"⟩) := by
        rw [hout]; exact attempt_classify_200 n "ok"
      rw [make_request_aux_terminal (failThenOk n) dur delay n a 0 s _ hcl]
      exact ⟨rfl, rfl, rfl⟩
    | succ j =>
      have hout : failThenOk n a = .resp ⟨500, ""⟩ := by
        simp [failThenOk, show a + 1 < n by omega]
      have hcl : attempt_classify n (failThenOk n a) =
          .inr (.networkError ("Server error after " ++ toString n ++ " attempts")) := by
        rw [hout]; exact attempt_classify_500 n ""
      rw [make_request_aux_retry_cont (failThenOk n) dur delay n a (j + 1) s _ hcl (by omega)]
      refine ⟨(ih _ _ (by omega) (by omega)).1, ?_, ?_⟩
      · rw [(ih _ _ (by omega) (by omega)).2.1]
      · show 2 ^ a :: _ = _
        rw [(ih _ _ (by omega) (by omega)).2.2,
          show j + 1 + 1 - 1 = j + 1 by omega, List.range'_succ, List.map_cons]
        rfl

/-- `_enforce_rate_limit` records a last-request time at least `delay` after
the previously recorded one. -/
theorem enforce_rate_limit_last_ge (delay : ℚ) (s : ReqState) :
    s.last + delay ≤ (enforce_rate_limit delay s).last := by
  simp only [enforce_rate_limit]
  by_cases h : s.clock - s.last < delay
  · rw [if_pos h]; simp only; linarith
  · rw [if_neg h]; simp only; linarith

/-- The recorded attempt times of the retry loop: consecutive attempts are at
least `delay` apart, every attempt time is at least `delay` after the state's
previous last-request time, and exactly one time is recorded per attempt. -/
theorem make_request_aux_times_spec (outcomes : Nat → AttemptOutcome) (dur : Nat → ℚ)
    (delay : ℚ) (maxRetries : Nat) (hd : 0 ≤ delay) :
    ∀ fuel a s,
      ((make_request_aux outcomes dur delay maxRetries a fuel s).times).Chain'
          (fun x y => x + delay ≤ y)
      ∧ (∀ t ∈ (make_request_aux outcomes dur delay maxRetries a fuel s).times,
          s.last + delay ≤ t)
      ∧ (make_request_aux outcomes dur delay maxRetries a fuel s).times.length
          = (make_request_aux outcomes dur delay maxRetries a fuel s).attempts := by
  intro fuel
  induction fuel with
  | zero =>
    intro a s
    refine ⟨List.chain'_nil, ?_, rfl⟩
    intro t ht
    cases ht
  | succ k ih =>
    intro a s
    rcases hcl : attempt_classify maxRetries (outcomes a) with res | e
    · rw [make_request_aux_terminal outcomes dur delay maxRetries a k s res hcl]
      refine ⟨List.chain'_singleton _, ?_, rfl⟩
      intro t ht
      rw [List.mem_singleton] at ht
      subst ht
      exact enforce_rate_limit_last_ge delay s
    · by_cases hl : a + 1 = maxRetries
      · rw [make_request_aux_retry_last outcomes dur delay maxRetries a k s e hcl hl]
        refine ⟨List.chain'_singleton _, ?_, rfl⟩
        intro t ht
        rw [List.mem_singleton] at ht
        subst ht
        exact enforce_rate_limit_last_ge delay s
      · rw [make_request_aux_retry_cont outcomes dur delay maxRetries a k s e hcl hl]
        obtain ⟨ihc, ihm, ihl⟩ := ih (a + 1)
          ⟨(enforce_rate_limit delay s).clock + dur a + ((2 ^ a : Nat) : ℚ),
            (enforce_rate_limit delay s).last⟩
        refine ⟨?_, ?_, ?_⟩
        · rw [List.chain'_cons']
          refine ⟨?_, ihc⟩
          intro y hy
          exact ihm y (List.mem_of_mem_head? hy)
        · intro t ht
          rcases List.mem_cons.mp ht with h | h
          · subst h
            exact enforce_rate_limit_last_ge delay s
          · have hy := ihm t h
            have h0 := enforce_rate_limit_last_ge delay s
            simp only at hy
            linarith
        · simp only [List.length_cons, ihl]

/-- The record loop of `search_records` never accumulates more than
`max_records` papers once at least one is allowed. -/
theorem collect_papers_length_le (accepts : ResearchPaperM → Bool) (max_records : Nat) :
    ∀ l acc, acc.length < max_records →
      (collect_papers accepts max_records acc l).length ≤ max_records := by
  intro l
  induction l with
  | nil => intro acc h; simpa [collect_papers] using Nat.le_of_lt h
  | cons r rs ih =>
    intro acc h
    simp only [collect_papers]
    by_cases hm : accepts r = true
    · rw [if_pos hm]
      by_cases hfull : max_records ≤ (acc ++ [r]).length
      · rw [if_pos hfull]
        simp only [List.length_append, List.length_singleton]
        omega
      · rw [if_neg hfull]
        exact ih _ (by omega)
    · rw [if_neg hm]
      by_cases hfull : max_records ≤ acc.length
      · omega
      · rw [if_neg hfull]
        exact ih _ (by omega)

/-- Every paper produced by the record loop comes from the accumulator or
from the single page being consumed. -/
theorem collect_papers_mem (accepts : ResearchPaperM → Bool) (max_records : Nat) :
    ∀ l acc x, x ∈ collect_papers accepts max_records acc l → x ∈ acc ∨ x ∈ l := by
  intro l
  induction l with
  | nil => intro acc x hx; simp only [collect_papers] at hx; exact Or.inl hx
  | cons r rs ih =>
    intro acc x hx
    simp only [collect_papers] at hx
    by_cases hm : accepts r = true
    · rw [if_pos hm] at hx
      by_cases hfull : max_records ≤ (acc ++ [r]).length
      · rw [if_pos hfull] at hx
        rcases List.mem_append.mp hx with h | h
        · exact Or.inl h
        · exact Or.inr (List.mem_cons.mpr (Or.inl (List.mem_singleton.mp h)))
      · rw [if_neg hfull] at hx
        rcases ih _ _ hx with h | h
        · rcases List.mem_append.mp h with h' | h'
          · exact Or.inl h'
          · exact Or.inr (List.mem_cons.mpr (Or.inl (List.mem_singleton.mp h')))
        · exact Or.inr (List.mem_cons.mpr (Or.inr h))
    · rw [if_neg hm] at hx
      by_cases hfull : max_records ≤ acc.length
      · rw [if_pos hfull] at hx
        exact Or.inl hx
      · rw [if_neg hfull] at hx
        rcases ih _ _ hx with h | h
        · exact Or.inl h
        · exact Or.inr (List.mem_cons.mpr (Or.inr h))

/-- The papers of a `search_records` result are the record loop applied to
the single fetched page. -/
theorem search_records_papers_def (env : List (String × String) → HarvestPage)
    (formatDate : String → String) (keywords subject_areas : Option (List String))
    (date_from date_until set_spec resumption_token : Option String) (max_records : Nat) :
    (search_records env formatDate keywords subject_areas date_from date_until set_spec
        resumption_token max_records).papers
      = collect_papers (matches_criteria keywords subject_areas) max_records []
          (env (build_list_records_params formatDate date_from date_until set_spec
            resumption_token)).records := rfl

/-- Filtering a list twice with the same predicate equals filtering once. -/
theorem listFilterIdem {α : Type} (p : α → Bool) :
    ∀ l : List α, (l.filter p).filter p = l.filter p := by
  intro l
  induction l with
  | nil => rfl
  | cons a l ih =>
    by_cases h : p a = true <;> simp [List.filter_cons, h, ih]

/-- Two filters over a list commute. -/
theorem listFilterSwap {α : Type} (p q : α → Bool) :
    ∀ l : List α, (l.filter q).filter p = (l.filter p).filter q := by
  intro l
  induction l with
  | nil => rfl
  | cons a l ih =>
    by_cases hp : p a = true <;> by_cases hq : q a = true <;>
      simp [List.filter_cons, hp, hq, ih]

/-- Every semester produced by the option loop has a non-empty, non-sentinel
code, and its view-only flag is exactly the lowercased-name marker check;
the name itself is the unmodified option text. -/
theorem parse_semesters_mem :
    ∀ (opts : List (String × String)) (s : Semester), s ∈ parse_semesters opts →
      s.code ≠ "" ∧ s.code ≠ "%" ∧ s.view_only = strContains (pyLower s.name) "view only" := by
  intro opts s hs
  simp only [parse_semesters, List.mem_filterMap] at hs
  obtain ⟨vt, _, hf⟩ := hs
  by_cases h : (pyStrip vt.1 ≠ "" ∧ pyStrip vt.2 ≠ "" ∧ pyStrip vt.1 ≠ "%")
  · rw [if_pos h] at hf
    cases hf
    exact ⟨h.1, h.2.2, rfl⟩
  · rw [if_neg h] at hf
    cases hf

/-- C1: on an endpoint that always answers 429 with `max_retries = 3`, the
internally raised `RateLimitError` is caught by the generic
`except Exception` clause, so the call consumes all 3 attempts, performs the
backoff sleeps 1 and 2 seconds, and surfaces a generic `ClientError` — not a
`RateLimitError` and not immediately. -/
theorem c1_429_retried_and_raised_as_client_error :
    (make_request (fun _ => .resp ⟨429, ""⟩) (fun _ => 0) 0 3 true ⟨0, 0⟩).result
        = .err (.clientError "Request failed after 3 attempts: Rate limit exceeded")
    ∧ (make_request (fun _ => .resp ⟨429, ""⟩) (fun _ => 0) 0 3 true ⟨0, 0⟩).attempts = 3
    ∧ (make_request (fun _ => .resp ⟨429, ""⟩) (fun _ => 0) 0 3 true ⟨0, 0⟩).sleeps = [1, 2]
    ∧ ∀ (m : String), (make_request (fun _ => .resp ⟨429, ""⟩) (fun _ => 0) 0 3 true ⟨0, 0⟩).result
        ≠ .err (.rateLimitError m) := by
  refine ⟨by decide, by decide, by decide, ?_⟩
  intro m h
  rw [show (make_request (fun _ => .resp ⟨429, ""⟩) (fun _ => 0) 0 3 true ⟨0, 0⟩).result
      = .err (.clientError "Request failed after 3 attempts: Rate limit exceeded") from by decide] at h
  simp at h

/-- C5: with `max_retries = n ≥ 1`, an endpoint that always returns 500
raises the server-error `NetworkError` after exactly `n` attempts with
`n - 1` backoff sleeps, and an endpoint returning 500 exactly `n - 1` times
then 200 succeeds after exactly `n` attempts with the strictly increasing
backoff sleeps `2 ^ 0, …, 2 ^ (n - 2)`. -/
theorem c5_backoff_exhaustion_and_recovery (n : Nat) (dur : Nat → ℚ) (delay : ℚ)
    (s : ReqState) (hn : 1 ≤ n) :
    (make_request always500 dur delay n true s).result
        = .err (.networkError ("Server error after " ++ toString n ++ " attempts"))
    ∧ (make_request always500 dur delay n true s).attempts = n
    ∧ (make_request always500 dur delay n true s).sleeps.length = n - 1
    ∧ (make_request (failThenOk n) dur delay n true s).result = .ok ⟨200, "ok"⟩
    ∧ (make_request (failThenOk n) dur delay n true s).attempts = n
    ∧ (make_request (failThenOk n) dur delay n true s).sleeps
        = (List.range (n - 1)).map (fun i => 2 ^ i)
    ∧ (make_request (failThenOk n) dur delay n true s).sleeps.Pairwise (· < ·) := by
  obtain ⟨h1, h2, h3⟩ := make_request_aux_always500 dur delay n n 0 s hn (by omega)
  obtain ⟨g1, g2, g3⟩ := make_request_aux_failThenOk dur delay n n 0 s hn (by omega)
  rw [make_request_open, make_request_open]
  have hrange : (List.range (n - 1)).map (fun i => (2 : Nat) ^ i)
      = (List.range' 0 (n - 1)).map (fun i => 2 ^ i) := by
    rw [List.range_eq_range']
  refine ⟨h1, h2, ?_, g1, g2, ?_, ?_⟩
  · rw [h3, List.length_map, List.length_range']
  · rw [g3, hrange]
  · rw [g3, ← hrange]
    rw [List.pairwise_map]
    exact (List.pairwise_lt_range (n - 1)).imp
      (fun hab => Nat.pow_lt_pow_right (by norm_num) hab)

/-- Witness for C5 at `n = 3`. -/
theorem c5_witness :
    1 ≤ 3
    ∧ ((make_request always500 (fun _ => 0) 1 3 true ⟨0, 0⟩).result
        = .err (.networkError ("Server error after " ++ toString 3 ++ " attempts"))
    ∧ (make_request always500 (fun _ => 0) 1 3 true ⟨0, 0⟩).attempts = 3
    ∧ (make_request always500 (fun _ => 0) 1 3 true ⟨0, 0⟩).sleeps.length = 3 - 1
    ∧ (make_request (failThenOk 3) (fun _ => 0) 1 3 true ⟨0, 0⟩).result = .ok ⟨200, "ok"⟩
    ∧ (make_request (failThenOk 3) (fun _ => 0) 1 3 true ⟨0, 0⟩).attempts = 3
    ∧ (make_request (failThenOk 3) (fun _ => 0) 1 3 true ⟨0, 0⟩).sleeps
        = (List.range (3 - 1)).map (fun i => 2 ^ i)
    ∧ (make_request (failThenOk 3) (fun _ => 0) 1 3 true ⟨0, 0⟩).sleeps.Pairwise (· < ·)) :=
  ⟨by norm_num, c5_backoff_exhaustion_and_recovery 3 (fun _ => 0) 1 ⟨0, 0⟩ (by norm_num)⟩

/-- C6: with spacing `delay > 0`, the recorded attempt times of one
`_make_request` call are at least `delay` apart consecutively, are
monotonically non-decreasing, and one time is recorded per attempt —
including attempts that fail, for any outcome family. -/
theorem c6_pacing_spacing_and_monotonicity (outcomes : Nat → AttemptOutcome)
    (dur : Nat → ℚ) (delay : ℚ) (maxRetries : Nat) (s : ReqState) (hd : 0 < delay) :
    (make_request outcomes dur delay maxRetries true s).times.Chain'
        (fun x y => x + delay ≤ y)
    ∧ (make_request outcomes dur delay maxRetries true s).times.Chain' (· ≤ ·)
    ∧ (make_request outcomes dur delay maxRetries true s).times.length
        = (make_request outcomes dur delay maxRetries true s).attempts := by
  rw [make_request_open]
  obtain ⟨hc, _, hl⟩ :=
    make_request_aux_times_spec outcomes dur delay maxRetries (le_of_lt hd) maxRetries 0 s
  exact ⟨hc, hc.imp (fun a b hab => by linarith), hl⟩

/-- Witness for C6 at `delay = 1` over an always-failing endpoint. -/
theorem c6_witness :
    (make_request always500 (fun _ => 0) 1 2 true ⟨0, 0⟩).times.Chain'
        (fun x y => x + 1 ≤ y)
    ∧ (make_request always500 (fun _ => 0) 1 2 true ⟨0, 0⟩).times.Chain' (· ≤ ·)
    ∧ (make_request always500 (fun _ => 0) 1 2 true ⟨0, 0⟩).times.length
        = (make_request always500 (fun _ => 0) 1 2 true ⟨0, 0⟩).attempts :=
  c6_pacing_spacing_and_monotonicity always500 (fun _ => 0) 1 2 ⟨0, 0⟩ (by norm_num)

/-- C10: `test_connection` of both clients returns a boolean for every
request outcome — `false` on every raised exception (including the
`ClientError` of an unopened connection scope) and on the implicit `None`
result, `true` only on a marker-bearing response. -/
theorem c10_test_connection_never_raises :
    (∀ e : GTError, test_connection (.err e) = false)
    ∧ test_connection .noneResult = false
    ∧ (∀ e : GTError, smartech_test_connection (.err e) = false)
    ∧ smartech_test_connection .noneResult = false
    ∧ (∀ (outcomes : Nat → AttemptOutcome) (dur : Nat → ℚ) (delay : ℚ) (n : Nat) (s : ReqState),
        test_connection (make_request outcomes dur delay n false s).result = false
        ∧ smartech_test_connection (make_request outcomes dur delay n false s).result = false)
    ∧ test_connection (.ok ⟨200, "the Schedule of Classes page"⟩) = true :=
  ⟨fun _ => rfl, rfl, fun _ => rfl, rfl, fun _ _ _ _ _ => ⟨rfl, rfl⟩, by decide⟩

/-- Counterexample for C2: in the two-page fixture, a `search_records` call
with `max_records = 3` returns only page 1's two records and still carries
the continuation token `X` — it does not aggregate to 3 records with no
token. -/
theorem c2_counterexample_no_page_aggregation :
    (search_records envTwoPages id none none none none none none 3).papers.length = 2
    ∧ (search_records envTwoPages id none none none none none none 3).resumptionToken = some "X"
    ∧ ¬((search_records envTwoPages id none none none none none none 3).papers.length = 3
        ∧ (search_records envTwoPages id none none none none none none 3).resumptionToken
            = none) := by
  decide

/-- C2 (amended): `search_records` consumes a single page per call — with
`max_records = 3` it returns page 1's two records with token `X`, with
`max_records = 1` one record with token `X`, and in general at most
`max_records` papers, all of them from the one fetched page. -/
theorem c2_single_page_bounded_search :
    search_records envTwoPages id none none none none none none 3
        = ⟨[paperFix "p1", paperFix "p2"], some "X", 2⟩
    ∧ search_records envTwoPages id none none none none none none 1
        = ⟨[paperFix "p1"], some "X", 1⟩
    ∧ (∀ (env : List (String × String) → HarvestPage) (fd : String → String)
        (kw sb : Option (List String)) (df du ss tok : Option String) (max_records : Nat),
        1 ≤ max_records →
        (search_records env fd kw sb df du ss tok max_records).papers.length ≤ max_records
        ∧ ∀ p ∈ (search_records env fd kw sb df du ss tok max_records).papers,
            p ∈ (env (build_list_records_params fd df du ss tok)).records) := by
  refine ⟨by decide, by decide, ?_⟩
  intro env fd kw sb df du ss tok mr hmr
  constructor
  · rw [search_records_papers_def]
    exact collect_papers_length_le _ mr _ [] (by simpa using hmr)
  · intro p hp
    rw [search_records_papers_def] at hp
    rcases collect_papers_mem _ mr _ [] p hp with h | h
    · cases h
    · exact h

/-- Witness for C2 at `max_records = 1` over the two-page fixture. -/
theorem c2_witness :
    (search_records envTwoPages id none none none none none none 1).papers.length ≤ 1 :=
  (c2_single_page_bounded_search.2.2 envTwoPages id none none none none none none 1
    (by norm_num)).1

/-- Counterexample for C3: the fixture's view-only semester keeps the
`(View only)` marker in its returned name — the marker is not stripped. -/
theorem c3_counterexample_marker_not_stripped :
    get_available_semesters (.ok (some semesterOptionsFix))
        = .ok [⟨"202502", "Spring 2025", false⟩, ⟨"202402", "Spring 2024 (View only)", true⟩]
    ∧ get_available_semesters (.ok (some semesterOptionsFix))
        ≠ .ok [⟨"202502", "Spring 2025", false⟩, ⟨"202402", "Spring 2024", true⟩] := by
  decide

/-- C3 (amended): empty and `%` sentinel options are dropped and the
view-only flag is exactly the case-insensitive `view only` marker check, but
the display name keeps the marker; the fixture yields the two semesters with
the second name unstripped. -/
theorem c3_semesters_marker_retained :
    (∀ (opts : List (String × String)) (s : Semester), s ∈ parse_semesters opts →
        s.code ≠ "" ∧ s.code ≠ "%" ∧ s.view_only = strContains (pyLower s.name) "view only")
    ∧ get_available_semesters (.ok (some semesterOptionsFix))
        = .ok [⟨"202502", "Spring 2025", false⟩, ⟨"202402", "Spring 2024 (View only)", true⟩] :=
  ⟨parse_semesters_mem, by decide⟩

/-- Witness for C3 at the fixture's first kept option. -/
theorem c3_witness :
    ("202502" : String) ≠ "" ∧ ("202502" : String) ≠ "%"
    ∧ (false : Bool) = strContains (pyLower "Spring 2025") "view only" :=
  c3_semesters_marker_retained.1 semesterOptionsFix ⟨"202502", "Spring 2025", false⟩ (by decide)

/-- Counterexample for C4: a token-bearing request carries `metadataPrefix`
besides `verb` and `resumptionToken` — not only `verb` and
`resumptionToken`. -/
theorem c4_counterexample_metadata_prefix_sent :
    (build_list_records_params id none none none (some "X")).map Prod.fst
        = ["verb", "metadataPrefix", "resumptionToken"]
    ∧ (build_list_records_params id none none none (some "X")).map Prod.fst
        ≠ ["verb", "resumptionToken"] := by
  decide

/-- C4 (amended): for every follow-up request with a resumption token the
outbound parameters are exactly `verb`, `metadataPrefix` and
`resumptionToken` — `from`, `until` and `set` are never resent. -/
theorem c4_token_request_parameter_keys :
    ∀ (fd : String → String) (df du ss : Option String) (tok : String),
      (build_list_records_params fd df du ss (some tok)).map Prod.fst
        = ["verb", "metadataPrefix", "resumptionToken"] := by
  intro fd df du ss tok
  rfl

/-- Counterexample for C7: over course numbers 1301, 1331, 1332 the filter
`course_num = "130"` keeps only 1301 — 1331 neither contains nor starts with
`130`, so the claimed result set 1301, 1331 is wrong. -/
theorem c7_counterexample_1331_not_matched :
    search_courses coursesFix (some "130") none = [courseFix "1301"]
    ∧ courseFix "1331" ∉ search_courses coursesFix (some "130") none := by
  decide

/-- C7 (amended): the local filter keeps a course iff the stripped
`course_num` is a substring of its number or the number starts with it (so
the fixture yields exactly 1301), and filtering is idempotent. -/
theorem c7_local_filter_rule_and_idempotence :
    search_courses coursesFix (some "130") none = [courseFix "1301"]
    ∧ (∀ (all : List CourseInfo) (cn ti : Option String),
        search_courses (search_courses all cn ti) cn ti = search_courses all cn ti)
    ∧ (∀ (all : List CourseInfo) (cn : String) (c : CourseInfo), ¬(cn = "") →
        (c ∈ search_courses all (some cn) none ↔
          c ∈ all ∧ course_filter_fun (pyStrip cn) c = true)) := by
  refine ⟨by decide, ?_, ?_⟩
  · intro all cn ti
    rcases cn with _ | cn <;> rcases ti with _ | t
    · rfl
    · by_cases ht : t = ""
      · subst ht; rfl
      · simp only [search_courses, if_neg ht]
        exact listFilterIdem _ all
    · by_cases hcn : cn = ""
      · subst hcn; rfl
      · simp only [search_courses, if_neg hcn]
        exact listFilterIdem _ all
    · by_cases hcn : cn = "" <;> by_cases ht : t = ""
      · subst hcn; subst ht; rfl
      · subst hcn
        simp only [search_courses, if_pos rfl, if_neg ht]
        exact listFilterIdem _ all
      · subst ht
        simp only [search_courses, if_neg hcn, if_pos rfl]
        exact listFilterIdem _ all
      · simp only [search_courses, if_neg hcn, if_neg ht]
        rw [listFilterSwap (course_filter_fun (pyStrip cn)) (title_filter_fun (pyStrip (pyLower t)))
          (all.filter (course_filter_fun (pyStrip cn)))]
        rw [listFilterIdem (course_filter_fun (pyStrip cn)) all]
        rw [listFilterIdem (title_filter_fun (pyStrip (pyLower t)))
          (all.filter (course_filter_fun (pyStrip cn)))]
  · intro all cn c hcn
    simp only [search_courses, if_neg hcn]
    exact List.mem_filter

/-- Witness for C7 at the fixture course 1301. -/
theorem c7_witness :
    courseFix "1301" ∈ search_courses coursesFix (some "130") none ↔
      courseFix "1301" ∈ coursesFix
        ∧ course_filter_fun (pyStrip "130") (courseFix "1301") = true :=
  c7_local_filter_rule_and_idempotence.2.2 coursesFix "130" (courseFix "1301") (by decide)

/-- Counterexample for C8: a Seats row `10, x, 5` leaves
`seats_capacity = 10` assigned before the failure and the independent
Waitlist row fully assigned — the structure is not reset to all-zero. -/
theorem c8_counterexample_not_reset_to_zero :
    extract_registration_info regTablesFix = ⟨10, 0, 0, 2, 1, 1⟩
    ∧ extract_registration_info regTablesFix ≠ ⟨0, 0, 0, 0, 0, 0⟩ := by
  decide

/-- C8 (amended): a non-numeric cell aborts only the remaining assignments
of its own row — a failure on the first numeric cell leaves the structure
unchanged, while a later failure keeps the fields already assigned, as the
fixture's partially filled result shows. -/
theorem c8_row_abort_keeps_earlier_fields :
    (∀ (cells : List String) (ri : RegistrationInfo), pyInt (cells.getD 1 "") = none →
        parse_seats_row ri cells = ri ∧ parse_waitlist_row ri cells = ri)
    ∧ extract_registration_info regTablesFix = ⟨10, 0, 0, 2, 1, 1⟩ := by
  refine ⟨?_, by decide⟩
  intro cells ri h
  constructor
  · simp only [parse_seats_row, h]
  · simp only [parse_waitlist_row, h]

/-- Witness for C8 at a row whose first numeric cell is non-numeric. -/
theorem c8_witness :
    pyInt (["Seats", "x", "2", "3"].getD 1 "") = none
    ∧ parse_seats_row ⟨0, 0, 0, 0, 0, 0⟩ ["Seats", "x", "2", "3"] = ⟨0, 0, 0, 0, 0, 0⟩
    ∧ parse_waitlist_row ⟨0, 0, 0, 0, 0, 0⟩ ["Seats", "x", "2", "3"] = ⟨0, 0, 0, 0, 0, 0⟩ :=
  ⟨by decide, (c8_row_abort_keeps_earlier_fields.1 ["Seats", "x", "2", "3"] ⟨0, 0, 0, 0, 0, 0⟩
      (by decide)).1,
    (c8_row_abort_keeps_earlier_fields.1 ["Seats", "x", "2", "3"] ⟨0, 0, 0, 0, 0, 0⟩
      (by decide)).2⟩

/-- Counterexample for C9: with the dropdown absent the caller observes a
`NetworkError` wrapping the parse failure's message — not a `ParseError`. -/
theorem c9_counterexample_parse_error_rewrapped :
    get_available_semesters (.ok none)
        = .error (.networkError
            "Failed to fetch available semesters: Could not find semester dropdown")
    ∧ get_available_semesters (.ok none)
        ≠ .error (.parseError "Could not find semester dropdown") := by
  decide

/-- C9 (amended): a missing dropdown raises `ParseError` internally, but the
surrounding handler re-raises every failure as `NetworkError` with the
wrapping message, so that is what the caller observes. -/
theorem c9_missing_dropdown_network_error :
    get_available_semesters (.ok none)
        = .error (.networkError
            "Failed to fetch available semesters: Could not find semester dropdown")
    ∧ ∀ e : GTError, get_available_semesters (.error e)
        = .error (.networkError ("Failed to fetch available semesters: " ++ errMsg e)) := by
  refine ⟨by decide, ?_⟩
  intro e
  rfl

end GTMCP
